import Mathlib

/-!
Verification of the MultiversX `mvx_verify_msg` event handler
(`ampd/src/handlers/mvx_verify_msg.rs`) against its specification.

The handler is embedded shallowly: external collaborators (the chain
evidence proxy and the message verifier) are parameters of the model,
the block-height oracle snapshot is an explicit `Nat` argument, and the
fetch calls made to the evidence source are tracked in the result so
that "the evidence source is never called" claims are statable.
-/

namespace MvxVerifyMsg

/-- Fixed-size 32-byte hash (`crate::types::Hash`), modelled as `Nat`. -/
abbrev Hash := Nat

/-- MultiversX bech32 address (`multiversx_sdk::data::address::Address`),
modelled abstractly as a string. -/
abbrev Address := String

/-- Tendermint/axelar account address (`crate::types::TMAddress`),
modelled abstractly as a string. -/
abbrev TMAddress := String

/-- Poll identifier (`axelar_wasm_std::voting::PollId`). -/
abbrev PollId := Nat

/-- Destination chain name (`router_api::ChainName`). -/
abbrev ChainName := String

/-- `axelar_wasm_std::voting::Vote`: the three possible vote outcomes. -/
inductive Vote where
  | succeededOnChain
  | failedOnChain
  | notFound
  deriving DecidableEq, Repr

/-- One claimed cross-chain message, as decoded from the poll-started
event (`Message` struct in `mvx_verify_msg.rs`). -/
structure Message where
  tx_id : Hash
  event_index : Nat
  destination_address : String
  destination_chain : ChainName
  source_address : Address
  payload_hash : Hash
  deriving DecidableEq, Repr

/-- The decoded `PollStartedEvent` struct of `mvx_verify_msg.rs`. -/
structure PollStartedEvent where
  poll_id : PollId
  source_gateway_address : Address
  messages : List Message
  participants : List TMAddress
  expires_at : Nat
  deriving DecidableEq, Repr

/-- Modelled from the spec: the opaque inbound event record of §6 — it
carries the emitting contract address, a type tag, and an attribute bag.
The attribute bag is represented by its deserialization outcome:
`some p` when the attributes deserialize into the `PollStartedEvent`
shape, `none` when they do not. The `events` crate that defines the
concrete `Event` type is not part of the supplied source. -/
structure Event where
  emitting_contract : TMAddress
  event_type : String
  attrs : Option PollStartedEvent
  deriving DecidableEq, Repr

/-- Modelled from the spec: `events::Event::is_from_contract`, which
tests whether the event was emitted by the given contract address
(§4.2 step 1). The `events` crate is not part of the supplied source. -/
def Event.is_from_contract (e : Event) (addr : TMAddress) : Bool :=
  e.emitting_contract == addr

/-- The two decode failure modes of the poll decoder (§4.1): a
non-matching event kind tag (`events::Error::EventTypeMismatch`), or a
matching tag whose payload fails to deserialize. -/
inductive EventsError where
  | eventTypeMismatch
  | deserializationFailed
  deriving DecidableEq, Repr

/-- The event type tag the `#[try_from("wasm-messages_poll_started")]`
attribute on `PollStartedEvent` matches against. -/
def pollStartedTag : String := "wasm-messages_poll_started"

/-- Modelled from the spec: the `TryFrom<&Event>` implementation derived
by `#[try_from("wasm-messages_poll_started")]` (§4.1, §6): a
non-matching tag yields `EventTypeMismatch`; a matching tag whose
attribute bag does not deserialize into the `PollStartedEvent` shape is
a deserialization failure; otherwise the decoded record is returned.
The `events_derive` crate is not part of the supplied source. -/
def tryIntoPollStarted (e : Event) : Except EventsError PollStartedEvent :=
  if e.event_type ≠ pollStartedTag then
    .error .eventTypeMismatch
  else
    match e.attrs with
    | some p => .ok p
    | none => .error .deserializationFailed

/-- `crate::handlers::errors::Error`, restricted to the variants used by
this handler. -/
inductive Error where
  | deserializeEvent
  | txReceipts
  deriving DecidableEq, Repr

/-- `voting_verifier::msg::ExecuteMsg`, restricted to the `Vote` variant
built by this handler. Its serde serialization is deterministic, so the
structured value stands for the serialized bytes. -/
structure VoteExecuteMsg where
  poll_id : PollId
  votes : List Vote
  deriving DecidableEq, Repr

/-- `cosmrs::cosmwasm::MsgExecuteContract` as built by
`Handler::vote_msg`: sender, target contract, serialized message body,
attached funds (fund denominations are irrelevant here, so funds are a
bare list of units). -/
structure MsgExecuteContract where
  sender : TMAddress
  contract : TMAddress
  msg : VoteExecuteMsg
  funds : List Unit
  deriving DecidableEq, Repr

/-- The handler's configuration (`Handler` struct fields other than the
proxy and the height receiver, which are passed explicitly). -/
structure Handler where
  verifier : TMAddress
  voting_verifier_contract : TMAddress
  deriving DecidableEq, Repr

/-- `Handler::vote_msg`: builds the outbound contract execution carrying
the vote, sent by the configured verifier to the voting-verifier
contract, with no funds attached. -/
def Handler.vote_msg (h : Handler) (poll_id : PollId) (votes : List Vote) :
    MsgExecuteContract :=
  { sender := h.verifier
    contract := h.voting_verifier_contract
    msg := { poll_id := poll_id, votes := votes }
    funds := [] }

/-- The per-message vote computation of `Handler::handle` (lines
133–142): for each message, in order, look up its transaction id in the
evidence map; absent ids yield `NotFound`, present ids delegate to
`verify_message` with the poll's source gateway address. -/
def computedVotes {T : Type} (verifyMessage : Address → T → Message → Vote)
    (p : PollStartedEvent) (transactions_info : Hash → Option T) : List Vote :=
  p.messages.map fun msg =>
    match transactions_info msg.tx_id with
    | none => Vote.notFound
    | some transaction =>
      verifyMessage p.source_gateway_address transaction msg

/-- The set of transaction ids `Handler::handle` collects for the
evidence fetch (lines 123–126): the messages' tx ids as a `HashSet`. -/
def txHashes (p : PollStartedEvent) : Finset Hash :=
  (p.messages.map Message.tx_id).toFinset

/-- `Handler::handle`, with the external collaborators explicit:
`verifyMessage` is `crate::mvx::verifier::verify_message`
(source gateway address, transaction evidence, message ↦ vote);
`fetch` is `MvxProxy::transactions_info_with_results` (set of tx ids ↦
evidence keyed by tx id, or a remote error); `latestBlockHeight` is the
value read from the block-height watch receiver. The second component
of the result records every set of tx ids requested from the evidence
source during the call. -/
def Handler.handle {T : Type} (h : Handler)
    (verifyMessage : Address → T → Message → Vote)
    (fetch : Finset Hash → Except Unit (Hash → Option T))
    (latestBlockHeight : Nat) (event : Event) :
    Except Error (List MsgExecuteContract) × List (Finset Hash) :=
  if ¬ event.is_from_contract h.voting_verifier_contract then
    (.ok [], [])
  else
    match tryIntoPollStarted event with
    | .error .eventTypeMismatch => (.ok [], [])
    | .error .deserializationFailed => (.error .deserializeEvent, [])
    | .ok p =>
      if ¬ p.participants.contains h.verifier then
        (.ok [], [])
      else if latestBlockHeight ≥ p.expires_at then
        (.ok [], [])
      else
        match fetch (txHashes p) with
        | .error _ => (.error .txReceipts, [txHashes p])
        | .ok transactions_info =>
          (.ok [h.vote_msg p.poll_id
              (computedVotes verifyMessage p transactions_info)],
            [txHashes p])

/-! ### Concrete sample data used by the witness theorems -/

/-- A sample handler configuration. -/
def wHandler : Handler :=
  { verifier := "axelar1me", voting_verifier_contract := "axelar1vv" }

/-- A sample message with transaction id 1. -/
def wMsg1 : Message :=
  { tx_id := 1, event_index := 0, destination_address := "0xd1"
    destination_chain := "ethereum", source_address := "erd1s1"
    payload_hash := 11 }

/-- A sample message with transaction id 2. -/
def wMsg2 : Message :=
  { tx_id := 2, event_index := 1, destination_address := "0xd2"
    destination_chain := "ethereum", source_address := "erd1s2"
    payload_hash := 22 }

/-- A sample message sharing transaction id 1 with `wMsg1`. -/
def wMsg3 : Message :=
  { tx_id := 1, event_index := 2, destination_address := "0xd3"
    destination_chain := "polygon", source_address := "erd1s3"
    payload_hash := 33 }

/-- A sample decoded poll in which `wHandler`'s verifier participates. -/
def wPoll : PollStartedEvent :=
  { poll_id := 100, source_gateway_address := "erd1gw"
    messages := [wMsg1, wMsg2, wMsg3]
    participants := ["axelar1a", "axelar1me", "axelar1b"]
    expires_at := 100 }

/-- A sample well-formed poll-started event from the configured
voting-verifier contract. -/
def wEvent : Event :=
  { emitting_contract := "axelar1vv", event_type := pollStartedTag
    attrs := some wPoll }

/-- A sample message-verifier stub over trivial evidence. -/
def wVerify : Address → Unit → Message → Vote :=
  fun _ _ _ => Vote.succeededOnChain

/-- A sample evidence map: only transaction id 1 is found. -/
def wInfo : Hash → Option Unit :=
  fun t => if t = 1 then some () else none

/-- A sample evidence source that always succeeds with `wInfo`. -/
def wFetchOk : Finset Hash → Except Unit (Hash → Option Unit) :=
  fun _ => .ok wInfo

/-- A sample evidence source that always fails. -/
def wFetchErr : Finset Hash → Except Unit (Hash → Option Unit) :=
  fun _ => .error ()

/-! ### Shared unfolding lemma -/

/-- For an event from the configured contract that decodes to a poll in
which the node participates and that is not expired, `handle` reduces
to the evidence-fetch-and-vote tail of the pipeline. -/
theorem handle_eq_of_filters {T : Type} (h : Handler)
    (verifyMessage : Address → T → Message → Vote)
    (fetch : Finset Hash → Except Unit (Hash → Option T))
    (latestBlockHeight : Nat) (event : Event) (p : PollStartedEvent)
    (hfrom : event.is_from_contract h.voting_verifier_contract = true)
    (hdec : tryIntoPollStarted event = .ok p)
    (hpart : p.participants.contains h.verifier = true)
    (hexp : latestBlockHeight < p.expires_at) :
    h.handle verifyMessage fetch latestBlockHeight event =
      match fetch (txHashes p) with
      | .error _ => (.error .txReceipts, [txHashes p])
      | .ok transactions_info =>
        (.ok [h.vote_msg p.poll_id
            (computedVotes verifyMessage p transactions_info)],
          [txHashes p]) := by
  have hm : h.verifier ∈ p.participants := by
    simpa using hpart
  unfold Handler.handle
  rw [hdec]
  simp [hfrom, hm, Nat.not_le.mpr hexp]

/-! ### Additional sample events for the witness theorems -/

/-- A sample event from the configured contract with a non-matching
type tag. -/
def wEventBadTag : Event :=
  { emitting_contract := "axelar1vv", event_type := "transfer"
    attrs := some wPoll }

/-- A sample event from the configured contract with the matching tag
but an attribute bag that does not deserialize. -/
def wEventMalformed : Event :=
  { emitting_contract := "axelar1vv", event_type := pollStartedTag
    attrs := none }

/-- A sample poll whose participants do not include `wHandler`'s
verifier. -/
def wPollNoPart : PollStartedEvent :=
  { wPoll with participants := ["axelar1a", "axelar1b"] }

/-- A sample poll with an empty messages list. -/
def wPollNoMsgs : PollStartedEvent :=
  { wPoll with messages := [] }

/-! ### Claim theorems -/

/-- C1: For every event that passes the origin, decode, participation,
and expiry filters and whose evidence fetch succeeds, `handle` returns
a successful result whose votes list has exactly one vote per input
message, in the same order as the poll's messages list
(`computedVotes` maps over `p.messages` in order), where a message's
vote is `NotFound` when its transaction id is absent from the returned
evidence map and otherwise is the message verifier applied to the
poll's source gateway address, that transaction's evidence, and the
message. -/
theorem handle_votes_one_per_message {T : Type} (h : Handler)
    (verifyMessage : Address → T → Message → Vote)
    (fetch : Finset Hash → Except Unit (Hash → Option T))
    (latestBlockHeight : Nat) (event : Event) (p : PollStartedEvent)
    (info : Hash → Option T)
    (hfrom : event.is_from_contract h.voting_verifier_contract = true)
    (hdec : tryIntoPollStarted event = .ok p)
    (hpart : p.participants.contains h.verifier = true)
    (hexp : latestBlockHeight < p.expires_at)
    (hfetch : fetch (txHashes p) = .ok info) :
    (h.handle verifyMessage fetch latestBlockHeight event).1 =
      .ok [h.vote_msg p.poll_id (computedVotes verifyMessage p info)] ∧
    (computedVotes verifyMessage p info).length = p.messages.length := by
  constructor
  · rw [handle_eq_of_filters h verifyMessage fetch latestBlockHeight event p
      hfrom hdec hpart hexp, hfetch]
  · simp [computedVotes]

/-- Witness for C1 at concrete data: three messages, only tx id 1
found in evidence. -/
theorem handle_votes_one_per_message_witness :
    (wHandler.handle wVerify wFetchOk 50 wEvent).1 =
      .ok [wHandler.vote_msg wPoll.poll_id (computedVotes wVerify wPoll wInfo)] ∧
    (computedVotes wVerify wPoll wInfo).length = wPoll.messages.length :=
  handle_votes_one_per_message wHandler wVerify wFetchOk 50 wEvent wPoll wInfo
    (by decide) rfl (by decide) (by decide) rfl

/-- C2: For every decoded, non-expired, participant poll whose evidence
fetch succeeds, `handle` returns exactly one outbound message: a
contract execution sent by the configured verifier to the configured
voting-verifier contract, whose body is the vote call carrying
`{poll_id, votes}`, with no funds attached. -/
theorem handle_single_vote_msg {T : Type} (h : Handler)
    (verifyMessage : Address → T → Message → Vote)
    (fetch : Finset Hash → Except Unit (Hash → Option T))
    (latestBlockHeight : Nat) (event : Event) (p : PollStartedEvent)
    (info : Hash → Option T)
    (hfrom : event.is_from_contract h.voting_verifier_contract = true)
    (hdec : tryIntoPollStarted event = .ok p)
    (hpart : p.participants.contains h.verifier = true)
    (hexp : latestBlockHeight < p.expires_at)
    (hfetch : fetch (txHashes p) = .ok info) :
    (h.handle verifyMessage fetch latestBlockHeight event).1 =
      .ok [{ sender := h.verifier
             contract := h.voting_verifier_contract
             msg := { poll_id := p.poll_id
                      votes := computedVotes verifyMessage p info }
             funds := [] }] := by
  rw [handle_eq_of_filters h verifyMessage fetch latestBlockHeight event p
    hfrom hdec hpart hexp, hfetch]
  rfl

/-- Witness for C2 at concrete data. -/
theorem handle_single_vote_msg_witness :
    (wHandler.handle wVerify wFetchOk 50 wEvent).1 =
      .ok [{ sender := wHandler.verifier
             contract := wHandler.voting_verifier_contract
             msg := { poll_id := wPoll.poll_id
                      votes := computedVotes wVerify wPoll wInfo }
             funds := [] }] :=
  handle_single_vote_msg wHandler wVerify wFetchOk 50 wEvent wPoll wInfo
    (by decide) rfl (by decide) (by decide) rfl

/-- C3: For every event whose emitting contract address is not the
configured voting-verifier contract, `handle` returns an empty
successful result (and makes no fetch call) without attempting to
decode, regardless of the event's tag or payload. -/
theorem handle_wrong_contract {T : Type} (h : Handler)
    (verifyMessage : Address → T → Message → Vote)
    (fetch : Finset Hash → Except Unit (Hash → Option T))
    (latestBlockHeight : Nat) (contract : TMAddress) (tag : String)
    (attrs : Option PollStartedEvent)
    (hne : contract ≠ h.voting_verifier_contract) :
    h.handle verifyMessage fetch latestBlockHeight
      { emitting_contract := contract, event_type := tag, attrs := attrs } =
      (.ok [], []) := by
  unfold Handler.handle
  simp [Event.is_from_contract, hne]

/-- Witness for C3: a poll-started-shaped event from another
contract. -/
theorem handle_wrong_contract_witness :
    wHandler.handle wVerify wFetchOk 50
      { emitting_contract := "axelar1other", event_type := pollStartedTag
        attrs := some wPoll } = (.ok [], []) :=
  handle_wrong_contract wHandler wVerify wFetchOk 50 "axelar1other"
    pollStartedTag (some wPoll) (by decide)

/-- C4: For every event from the configured contract, a non-matching
kind tag makes `handle` return an empty successful result (never an
error), while a matching tag whose payload fails to decode into the
`PollStartedEvent` shape makes `handle` return a hard deserialization
error. -/
theorem handle_decode_outcomes {T : Type} (h : Handler)
    (verifyMessage : Address → T → Message → Vote)
    (fetch : Finset Hash → Except Unit (Hash → Option T))
    (latestBlockHeight : Nat) (event : Event)
    (hfrom : event.is_from_contract h.voting_verifier_contract = true) :
    (event.event_type ≠ pollStartedTag →
      h.handle verifyMessage fetch latestBlockHeight event = (.ok [], [])) ∧
    (event.event_type = pollStartedTag → event.attrs = none →
      h.handle verifyMessage fetch latestBlockHeight event =
        (.error .deserializeEvent, [])) := by
  constructor
  · intro htag
    unfold Handler.handle
    simp [hfrom, tryIntoPollStarted, htag]
  · intro htag hattrs
    unfold Handler.handle
    simp [hfrom, tryIntoPollStarted, htag, hattrs]

/-- Witness for C4: a wrongly-tagged event is skipped, a matching-tag
event with an undecodable payload is a hard error. -/
theorem handle_decode_outcomes_witness :
    wHandler.handle wVerify wFetchOk 50 wEventBadTag = (.ok [], []) ∧
    wHandler.handle wVerify wFetchOk 50 wEventMalformed =
      (.error .deserializeEvent, []) :=
  ⟨(handle_decode_outcomes wHandler wVerify wFetchOk 50 wEventBadTag
      (by decide)).1 (by decide),
   (handle_decode_outcomes wHandler wVerify wFetchOk 50 wEventMalformed
      (by decide)).2 rfl rfl⟩

/-- C5: For every decoded poll whose participant set does not contain
the configured verifier, `handle` returns an empty successful result
and the evidence source is never called (the fetch-call trace is
empty). -/
theorem handle_not_participant {T : Type} (h : Handler)
    (verifyMessage : Address → T → Message → Vote)
    (fetch : Finset Hash → Except Unit (Hash → Option T))
    (latestBlockHeight : Nat) (event : Event) (p : PollStartedEvent)
    (hfrom : event.is_from_contract h.voting_verifier_contract = true)
    (hdec : tryIntoPollStarted event = .ok p)
    (hnp : p.participants.contains h.verifier = false) :
    h.handle verifyMessage fetch latestBlockHeight event = (.ok [], []) := by
  have hm : h.verifier ∉ p.participants := by
    simpa using hnp
  unfold Handler.handle
  rw [hdec]
  simp [hfrom, hm]

/-- Witness for C5: a poll without this node among the participants,
against an evidence source that would error if called. -/
theorem handle_not_participant_witness :
    wHandler.handle wVerify wFetchErr 50
      { emitting_contract := "axelar1vv", event_type := pollStartedTag
        attrs := some wPollNoPart } = (.ok [], []) :=
  handle_not_participant wHandler wVerify wFetchErr 50
    { emitting_contract := "axelar1vv", event_type := pollStartedTag
      attrs := some wPollNoPart } wPollNoPart (by decide) rfl (by decide)

/-- C6: For every decoded poll in which this node participates, a
height at or above `expires_at` makes `handle` return an empty
successful result with no fetch call (for every evidence source,
erroring ones included), while a height below `expires_at` makes the
evidence source be queried (the fetch-call trace is exactly one call
with the poll's tx-id set). -/
theorem handle_expiry_gates_fetch {T : Type} (h : Handler)
    (verifyMessage : Address → T → Message → Vote)
    (fetch : Finset Hash → Except Unit (Hash → Option T))
    (latestBlockHeight : Nat) (event : Event) (p : PollStartedEvent)
    (hfrom : event.is_from_contract h.voting_verifier_contract = true)
    (hdec : tryIntoPollStarted event = .ok p)
    (hpart : p.participants.contains h.verifier = true) :
    (latestBlockHeight ≥ p.expires_at →
      h.handle verifyMessage fetch latestBlockHeight event = (.ok [], [])) ∧
    (latestBlockHeight < p.expires_at →
      (h.handle verifyMessage fetch latestBlockHeight event).2 =
        [txHashes p]) := by
  have hm : h.verifier ∈ p.participants := by
    simpa using hpart
  constructor
  · intro hge
    unfold Handler.handle
    rw [hdec]
    simp [hfrom, hm, hge]
  · intro hlt
    rw [handle_eq_of_filters h verifyMessage fetch latestBlockHeight event p
      hfrom hdec hpart hlt]
    rcases hfv : fetch (txHashes p) with e | info <;> simp [hfv]

/-- Witness for C6: `wPoll.expires_at = 100`; at height 101 the result
is empty with no fetch call even though the evidence source errors, at
height 99 the evidence source is queried. -/
theorem handle_expiry_gates_fetch_witness :
    wHandler.handle wVerify wFetchErr 101 wEvent = (.ok [], []) ∧
    (wHandler.handle wVerify wFetchErr 99 wEvent).2 = [txHashes wPoll] :=
  ⟨(handle_expiry_gates_fetch wHandler wVerify wFetchErr 101 wEvent wPoll
      (by decide) rfl (by decide)).1 (by decide),
   (handle_expiry_gates_fetch wHandler wVerify wFetchErr 99 wEvent wPoll
      (by decide) rfl (by decide)).2 (by decide)⟩

/-- C7: For every decoded, non-expired, participant poll, `handle`
makes exactly one fetch call, with exactly the set of distinct `tx_id`
values occurring in the poll's messages: duplicates collapsed, no id
added and none omitted. -/
theorem handle_fetch_set_is_message_tx_ids {T : Type} (h : Handler)
    (verifyMessage : Address → T → Message → Vote)
    (fetch : Finset Hash → Except Unit (Hash → Option T))
    (latestBlockHeight : Nat) (event : Event) (p : PollStartedEvent)
    (hfrom : event.is_from_contract h.voting_verifier_contract = true)
    (hdec : tryIntoPollStarted event = .ok p)
    (hpart : p.participants.contains h.verifier = true)
    (hexp : latestBlockHeight < p.expires_at) :
    (h.handle verifyMessage fetch latestBlockHeight event).2 =
      [txHashes p] ∧
    ∀ txid : Hash, txid ∈ txHashes p ↔ ∃ m ∈ p.messages, m.tx_id = txid := by
  constructor
  · rw [handle_eq_of_filters h verifyMessage fetch latestBlockHeight event p
      hfrom hdec hpart hexp]
    rcases hfv : fetch (txHashes p) with e | info <;> simp [hfv]
  · intro txid
    simp [txHashes]

/-- Witness for C7: the sample poll has three messages over two
distinct transaction ids. -/
theorem handle_fetch_set_is_message_tx_ids_witness :
    (wHandler.handle wVerify wFetchOk 50 wEvent).2 = [txHashes wPoll] ∧
    ∀ txid : Hash, txid ∈ txHashes wPoll ↔
      ∃ m ∈ wPoll.messages, m.tx_id = txid :=
  handle_fetch_set_is_message_tx_ids wHandler wVerify wFetchOk 50 wEvent wPoll
    (by decide) rfl (by decide) (by decide)

/-- C8: For every decoded, non-expired, participant poll where the
evidence source returns an error, `handle` propagates the
evidence-fetch hard error and returns no outbound message at all. -/
theorem handle_fetch_error_propagates {T : Type} (h : Handler)
    (verifyMessage : Address → T → Message → Vote)
    (fetch : Finset Hash → Except Unit (Hash → Option T))
    (latestBlockHeight : Nat) (event : Event) (p : PollStartedEvent)
    (hfrom : event.is_from_contract h.voting_verifier_contract = true)
    (hdec : tryIntoPollStarted event = .ok p)
    (hpart : p.participants.contains h.verifier = true)
    (hexp : latestBlockHeight < p.expires_at)
    (hfail : fetch (txHashes p) = .error ()) :
    (h.handle verifyMessage fetch latestBlockHeight event).1 =
      .error .txReceipts := by
  rw [handle_eq_of_filters h verifyMessage fetch latestBlockHeight event p
    hfrom hdec hpart hexp, hfail]

/-- Witness for C8: the always-failing evidence source. -/
theorem handle_fetch_error_propagates_witness :
    (wHandler.handle wVerify wFetchErr 50 wEvent).1 = .error .txReceipts :=
  handle_fetch_error_propagates wHandler wVerify wFetchErr 50 wEvent wPoll
    (by decide) rfl (by decide) (by decide) rfl

/-- C9: `handle` is deterministic: two calls with an identical event,
an identical height snapshot, and identical evidence-source responses
produce identical results, in particular identical outbound vote
payloads. -/
theorem handle_deterministic {T : Type} (h : Handler)
    (verifyMessage : Address → T → Message → Vote)
    (fetch₁ fetch₂ : Finset Hash → Except Unit (Hash → Option T))
    (height₁ height₂ : Nat) (event₁ event₂ : Event)
    (he : event₁ = event₂) (hh : height₁ = height₂)
    (hf : fetch₁ = fetch₂) :
    h.handle verifyMessage fetch₁ height₁ event₁ =
      h.handle verifyMessage fetch₂ height₂ event₂ := by
  rw [he, hh, hf]

/-- Witness for C9 at concrete data. -/
theorem handle_deterministic_witness :
    wHandler.handle wVerify wFetchOk 50 wEvent =
      wHandler.handle wVerify wFetchOk 50 wEvent :=
  handle_deterministic wHandler wVerify wFetchOk wFetchOk 50 50 wEvent wEvent
    rfl rfl rfl

/-- C10: For every decoded, non-expired, participant poll with an empty
messages list, `handle` still calls the evidence source with the empty
set of tx ids, and when that call succeeds it returns exactly one
outbound vote message with an empty votes list — never an empty result
list. -/
theorem handle_empty_messages_still_votes {T : Type} (h : Handler)
    (verifyMessage : Address → T → Message → Vote)
    (fetch : Finset Hash → Except Unit (Hash → Option T))
    (latestBlockHeight : Nat) (event : Event) (p : PollStartedEvent)
    (info : Hash → Option T)
    (hfrom : event.is_from_contract h.voting_verifier_contract = true)
    (hdec : tryIntoPollStarted event = .ok p)
    (hpart : p.participants.contains h.verifier = true)
    (hexp : latestBlockHeight < p.expires_at)
    (hempty : p.messages = [])
    (hfetch : fetch (∅ : Finset Hash) = .ok info) :
    (h.handle verifyMessage fetch latestBlockHeight event).2 =
      [(∅ : Finset Hash)] ∧
    h.handle verifyMessage fetch latestBlockHeight event =
      (.ok [h.vote_msg p.poll_id []], [(∅ : Finset Hash)]) := by
  have hs : txHashes p = (∅ : Finset Hash) := by
    simp [txHashes, hempty]
  have hmain : h.handle verifyMessage fetch latestBlockHeight event =
      (.ok [h.vote_msg p.poll_id []], [(∅ : Finset Hash)]) := by
    rw [handle_eq_of_filters h verifyMessage fetch latestBlockHeight event p
      hfrom hdec hpart hexp, hs, hfetch]
    simp [computedVotes, hempty]
  exact ⟨by rw [hmain], hmain⟩

/-- Witness for C10: a participant poll with no messages. -/
theorem handle_empty_messages_still_votes_witness :
    (wHandler.handle wVerify wFetchOk 50
      { emitting_contract := "axelar1vv", event_type := pollStartedTag
        attrs := some wPollNoMsgs }).2 = [(∅ : Finset Hash)] ∧
    wHandler.handle wVerify wFetchOk 50
      { emitting_contract := "axelar1vv", event_type := pollStartedTag
        attrs := some wPollNoMsgs } =
      (.ok [wHandler.vote_msg wPollNoMsgs.poll_id []], [(∅ : Finset Hash)]) :=
  handle_empty_messages_still_votes wHandler wVerify wFetchOk 50
    { emitting_contract := "axelar1vv", event_type := pollStartedTag
      attrs := some wPollNoMsgs } wPollNoMsgs wInfo
    (by decide) rfl (by decide) (by decide) rfl rfl

end MvxVerifyMsg
